import Mathlib

/-!
Verification development for the pynwb prototype (src/pynwb/file.py and
src/pynwb/io/write.py).  Python objects are shallowly embedded: dictionaries
become association lists with Python's insert-or-replace-in-place semantics,
floats become rationals, fallible code returns `Except`, and collaborator
modules that are not part of the two source files (the h5tools builders,
BaseObjectHandler, and the pynwb.ui class hierarchy that write.py imports) are
modelled from the spec, each marked as such in its doc comment.

Conventions: a Python identifier-resolution typo whose referent is evident
(e.g. the `GroupBulder()` and `HDFContainerRenderer` misspellings, the bare
`unit`/`conversion`/`resolution` names in the data-attribute dict) is resolved
to the evident entity; semantic slips in the dataflow (a wrong value passed, a
wrong string or variable used, a missing check, a mis-ordered assignment) are
embedded faithfully, because those are the behaviours the claims probe.

The file is organised as one block of definitions followed by one block of
theorems.
-/

namespace NWB

/-! ## Python dict as an association list

Python 3 dicts preserve insertion order; assigning to an existing key replaces
the value in place, keeping the key's position. -/

def dictGet {α : Type} : List (String × α) → String → Option α
  | [], _ => none
  | (k, v) :: t, k' => if k = k' then some v else dictGet t k'

def dictSet {α : Type} : List (String × α) → String → α → List (String × α)
  | [], k, v => [(k, v)]
  | (k0, v0) :: t, k, v =>
      if k0 = k then (k, v) :: t else (k0, v0) :: dictSet t k v

def dictKeys {α : Type} (d : List (String × α)) : List String :=
  d.map Prod.fst

/-! ## Container state of `NWBFile` (src/pynwb/file.py)

The embedded state keeps the fields the claims exercise: the three time-series
dicts filled by `__set_timeseries`, and the electrode-group dict plus the
insertion-order index dict filled by `set_electrode_group`.  The `parent`
back-reference that `__set_timeseries` and `set_electrode_group` also assign is
not part of this state (it is only read by the path resolver, which has its
own parent-chain model below). -/

structure TSModel where
  name : String
  source : String
  deriving DecidableEq

structure EGroup where
  name : String
  deriving DecidableEq

structure NWBFileSt where
  raw_data : List (String × TSModel)
  stimulus : List (String × TSModel)
  stimulus_template : List (String × TSModel)
  ec_electrodes : List (String × EGroup)
  ec_electrode_idx : List (String × Nat)
  deriving DecidableEq

def emptyNWBFileSt : NWBFileSt :=
  { raw_data := [], stimulus := [], stimulus_template := [],
    ec_electrodes := [], ec_electrode_idx := [] }

/-- Embedding of `NWBFile.__set_timeseries` (file.py:283-287): an unconditional
dict assignment `ts_dict[ts.name] = ts` with no duplicate-name check.  The
`epoch` argument path (file.py:286-287) is not modelled; the claims pass no
epoch. -/
def set_timeseries (d : List (String × TSModel)) (ts : TSModel) :
    List (String × TSModel) :=
  dictSet d ts.name ts

/-- Embedding of `NWBFile.add_raw_timeseries` (file.py:265-267). -/
def add_raw_timeseries (f : NWBFileSt) (ts : TSModel) : NWBFileSt :=
  { f with raw_data := set_timeseries f.raw_data ts }

/-- Embedding of `NWBFile.add_stimulus` (file.py:272-274). -/
def add_stimulus (f : NWBFileSt) (ts : TSModel) : NWBFileSt :=
  { f with stimulus := set_timeseries f.stimulus ts }

/-- Embedding of `NWBFile.add_stimulus_template` (file.py:279-281). -/
def add_stimulus_template (f : NWBFileSt) (ts : TSModel) : NWBFileSt :=
  { f with stimulus_template := set_timeseries f.stimulus_template ts }

/-- Embedding of `NWBFile.__exists` (file.py:190-191): `ts.name in d`. -/
def ts_exists (ts : TSModel) (d : List (String × TSModel)) : Bool :=
  (dictKeys d).contains ts.name

/-- Embedding of `NWBFile.is_raw_data` (file.py:181-182). -/
def is_raw_data (f : NWBFileSt) (ts : TSModel) : Bool :=
  ts_exists ts f.raw_data

/-- Embedding of `NWBFile.is_stimulus` (file.py:184-185). -/
def is_stimulus (f : NWBFileSt) (ts : TSModel) : Bool :=
  ts_exists ts f.stimulus

/-- Embedding of `NWBFile.is_stimulus_template` (file.py:187-188). -/
def is_stimulus_template (f : NWBFileSt) (ts : TSModel) : Bool :=
  ts_exists ts f.stimulus_template

/-- Embedding of `NWBFile.set_electrode_group` (file.py:338-344): stores the
group under its name and assigns `len(self.__ec_electrode_idx)` (evaluated
before the assignment) as its index; returns the stored index. -/
def set_electrode_group (f : NWBFileSt) (g : EGroup) : NWBFileSt × Nat :=
  let f2 := { f with
    ec_electrodes := dictSet f.ec_electrodes g.name g,
    ec_electrode_idx := dictSet f.ec_electrode_idx g.name f.ec_electrode_idx.length }
  (f2, f.ec_electrode_idx.length)

/-- Embedding of the `name` normalisation in `get_electrode_group_idx`
(file.py:349-350): an `ElectrodeGroup` argument is replaced by its name. -/
def egroup_name : String ⊕ EGroup → String
  | Sum.inl s => s
  | Sum.inr g => g.name

/-- Embedding of `NWBFile.get_electrode_group_idx` (file.py:347-351):
`self.__ec_electrode_idx.get(name, None)`. -/
def get_electrode_group_idx (f : NWBFileSt) (x : String ⊕ EGroup) : Option Nat :=
  dictGet f.ec_electrode_idx (egroup_name x)

/-- Registration of a sequence of electrode groups by name, each through
`set_electrode_group`. -/
def registerAll (f : NWBFileSt) (names : List String) : NWBFileSt :=
  names.foldl (fun acc n => (set_electrode_group acc (EGroup.mk n)).1) f

def tsFirst : TSModel := ⟨"series1", "sourceA"⟩

def tsSecond : TSModel := ⟨"series1", "sourceB"⟩

inductive TsTarget
  | raw
  | stim
  | tmpl
  deriving DecidableEq

structure TsAddOp where
  target : TsTarget
  ts : TSModel
  deriving DecidableEq

/-- Dispatch of one attach operation to `add_raw_timeseries`, `add_stimulus`
or `add_stimulus_template`. -/
def applyTsOp (f : NWBFileSt) (op : TsAddOp) : NWBFileSt :=
  match op.target with
  | .raw => add_raw_timeseries f op.ts
  | .stim => add_stimulus f op.ts
  | .tmpl => add_stimulus_template f op.ts

def applyTsOps (f : NWBFileSt) (ops : List TsAddOp) : NWBFileSt :=
  ops.foldl applyTsOp f

/-- Projection of the dict a target kind writes into. -/
def targetDict (f : NWBFileSt) : TsTarget → List (String × TSModel)
  | .raw => f.raw_data
  | .stim => f.stimulus
  | .tmpl => f.stimulus_template

/-! ## Rational arithmetic helpers

The Python floats of the source are embedded as rationals.  Addition and
division are implemented through `Rat.divInt` so that concrete witnesses
evaluate inside the kernel; the theorems `ratAdd_eq` and `ratDiv_eq` below
identify them with the field operations of `ℚ`. -/

def ratAdd (a b : ℚ) : ℚ :=
  Rat.divInt (a.num * b.den + b.num * a.den) (a.den * b.den)

def ratDiv (a b : ℚ) : ℚ :=
  Rat.divInt (a.num * b.den) (b.num * a.den)

/-- Python truthiness of an optional float: `None` and `0.0` are falsy. -/
def pyTruthyRat : Option ℚ → Bool
  | none => false
  | some q => decide (q ≠ 0)

/-- Python `x if x else d` on an optional float. -/
def ratOrDefault (o : Option ℚ) (d : ℚ) : ℚ :=
  match o with
  | none => d
  | some q => if q = 0 then d else q

/-! ## Builder intermediate representation

Modelled from the spec: the h5tools builder classes (`GroupBuilder`,
`DatasetBuilder`, the link builders) are imported by write.py but are not
under src; §4.2 of the spec describes them.  Groups hold named subgroups,
datasets, attributes and links.  The add operations below are plain appends;
the spec's DuplicateNameError behaviour is made explicit at the call sites
where a claim exercises duplicate names. -/

inductive DataValue
  | str (s : String)
  | strList (l : List String)
  | num (q : ℚ)
  | numList (l : List ℚ)
  | natVal (n : Nat)
  | natList (l : List Nat)
  deriving DecidableEq

structure DatasetB where
  payload : DataValue
  attributes : List (String × DataValue)
  deriving DecidableEq

inductive LinkB
  | soft (path : String)
  | hard (path : String)
  | external (file_path : String) (path : String)
  deriving DecidableEq

mutual
inductive GroupB
  | mk (groups : GEntries) (datasets : List (String × DatasetB))
       (attributes : List (String × DataValue)) (links : List (String × LinkB))
inductive GEntries
  | nil
  | cons (name : String) (g : GroupB) (rest : GEntries)
end

def GroupB.empty : GroupB := .mk .nil [] [] []

def GEntries.ofList : List (String × GroupB) → GEntries
  | [] => .nil
  | (n, g) :: t => .cons n g (GEntries.ofList t)

def GEntries.toList : GEntries → List (String × GroupB)
  | .nil => []
  | .cons n g t => (n, g) :: GEntries.toList t

def GEntries.append : GEntries → GEntries → GEntries
  | .nil, e => e
  | .cons n g t, e => .cons n g (GEntries.append t e)

def GroupB.groupsOf : GroupB → GEntries
  | .mk gs _ _ _ => gs

def GroupB.datasetsOf : GroupB → List (String × DatasetB)
  | .mk _ ds _ _ => ds

def GroupB.attributesOf : GroupB → List (String × DataValue)
  | .mk _ _ as _ => as

def GroupB.linksOf : GroupB → List (String × LinkB)
  | .mk _ _ _ ls => ls

def GroupB.addGroup : GroupB → String → GroupB → GroupB
  | .mk gs ds as ls, n, g => .mk (gs.append (.cons n g .nil)) ds as ls

def GroupB.addDataset : GroupB → String → DataValue → List (String × DataValue) → GroupB
  | .mk gs ds as ls, n, v, dattrs => .mk gs (ds ++ [(n, ⟨v, dattrs⟩)]) as ls

def GroupB.addAttr : GroupB → String → DataValue → GroupB
  | .mk gs ds as ls, n, v => .mk gs ds (as ++ [(n, v)]) ls

def GroupB.addLinkB : GroupB → String → LinkB → GroupB
  | .mk gs ds as ls, n, l => .mk gs ds as (ls ++ [(n, l)])

def GEntries.findEntry : GEntries → String → Option GroupB
  | .nil, _ => none
  | .cons n g t, k => if n = k then some g else GEntries.findEntry t k

def GEntries.setEntry : GEntries → String → GroupB → GEntries
  | .nil, k, v => .cons k v .nil
  | .cons n g t, k, v =>
      if n = k then .cons k v t else .cons n g (GEntries.setEntry t k v)

/-! ## Errors raised along the render and write paths -/

inductive RenderErr
  | unknownPlacement
  | orphanTop
  | emptyJoin
  | typeError (what : String)
  | attributeError (name : String)
  | nameError (name : String)
  | duplicateName (name : String)
  | mergeConflict (name : String)
  | indexError
  deriving DecidableEq

/-! ## Path resolution (write.py:112-151)

Containers carry their parent chain.  A chain always terminates at a file
root in this model; file.py's attach operations all set `parent` on attach,
so an orphan chain is not constructible through the embedded API. -/

inductive CKind
  | timeSeriesK
  | moduleK
  | ifaceK
  | otherK
  deriving DecidableEq

structure FileNS where
  raw : List String
  stim : List String
  tmpl : List String
  container_source : String
  deriving DecidableEq

inductive Cont
  | file (ns : FileNS)
  | child (kind : CKind) (name : String) (parent : Cont)
  deriving DecidableEq

/-- Embedding of `Hdf5ContainerRenderer.__relative_location` (write.py:112-134).
A TimeSeries child of the file dispatches on the file's three namespaces; the
source invokes the classification helpers on the ui NWBFile (`is_rawdata`,
`is_stimulus`, `is_stimulus_template`) — the ui class is not under src, so the
predicates are modelled from the spec as name membership in the respective
namespace (note the first helper is invoked under the name `is_rawdata`, which
file.py does not define — file.py has `is_raw_data`).  A TimeSeries in none of
the three namespaces leaves `relpath = None`, and `posixpath.join(None, name)`
raises TypeError.  An unmatched parent/child type pair reaches the final
`raise Exception('No known location ...')`. -/
def relative_location (parent child : Cont) : Except RenderErr String :=
  match child with
  | .file _ => .ok ""
  | .child ck cname _ =>
    match parent with
    | .file ns =>
      match ck with
      | .timeSeriesK =>
          if ns.raw.contains cname then .ok ("acquisition/timeseries/" ++ cname)
          else if ns.stim.contains cname then .ok ("stimulus/presentation/" ++ cname)
          else if ns.tmpl.contains cname then .ok ("stimulus/templates/" ++ cname)
          else .error (.typeError "join with None relpath")
      | .moduleK => .ok ("processing/" ++ cname)
      | _ => .error .unknownPlacement
    | .child pk _ _ =>
      match pk, ck with
      | .moduleK, .ifaceK => .ok cname
      | .ifaceK, .timeSeriesK => .ok cname
      | _, _ => .error .unknownPlacement

/-- Embedding of the `while curr.parent` loop of `get_container_location`
(write.py:141-144), kept faithful to the source's assignment order: the loop
body updates `top_container` to the current node and only then steps to the
parent, so at loop exit `top_container` holds the root's child (or the
starting container itself when that container is the file), never the file
reached by the walk. -/
def locLoop : Cont → Cont → List String → Except RenderErr (List String × Cont)
  | .file _, top, acc => .ok (acc, top)
  | .child ck cn p, _, acc =>
      match relative_location p (.child ck cn p) with
      | .error e => .error e
      | .ok seg => locLoop p (.child ck cn p) (acc ++ [seg])

/-- Embedding of `posixpath.join(*reversed(location))` for the relative
segments produced by the walk: TypeError on an empty argument list, a
'/'-join otherwise. -/
def posixJoinAll : List String → Except RenderErr String
  | [] => .error .emptyJoin
  | s :: t => .ok (String.intercalate "/" (s :: t))

/-- Embedding of `Hdf5ContainerRenderer.get_container_location`
(write.py:136-151): walk the parent chain collecting relative segments, check
that the recorded top container is the file (which, by the loop above, it
never is for a non-file container), then join the reversed segments. -/
def get_container_location (container : Cont) : Except RenderErr (String × String) :=
  match locLoop container container [] with
  | .error e => .error e
  | .ok (location, top) =>
    match top with
    | .file ns =>
        match posixJoinAll location.reverse with
        | .error e => .error e
        | .ok path => .ok (ns.container_source, path)
    | .child _ _ _ => .error .orphanTop

/-! ## Interval indexer (C1)

`TimeFinder` (write.py:153-158) is declared with an unimplemented `__call__`
(its body is `pass`) and no `add_interval` method, so the computation itself
is absent from src and is modelled from the spec (§4.5). -/

/-- Modelled from the spec: the regular timestamp grid derived from a
start-time+rate pair — sample i carries timestamp `start + i / rate`. -/
def regularTimestamps (start rate : ℚ) (n : Nat) : List ℚ :=
  (List.range n).map (fun i => ratAdd start (ratDiv (mkRat i 1) rate))

/-- Modelled from the spec: `start_index` is the first sample index whose
timestamp is ≥ the window start; absent when no timestamp qualifies. -/
def findStartIndex (T : List ℚ) (start : ℚ) : Option Nat :=
  let i := T.findIdx (fun q => decide (start ≤ q))
  if i < T.length then some i else none

/-- Modelled from the spec: the membership record of a window over a
timestamp array — `start_index` as above, and `count` the number of
consecutive samples from `start_index` with timestamp ≤ the window end
(`count = 0`, with no start index, when no sample qualifies). -/
def intervalRecord (T : List ℚ) (start fin : ℚ) : Option Nat × Nat :=
  match findStartIndex T start with
  | none => (none, 0)
  | some i => (some i, ((T.drop i).takeWhile (fun q => decide (q ≤ fin))).length)

structure EpochWindow where
  start_time : ℚ
  stop_time : ℚ
  deriving DecidableEq

/-- Embedding of the interval the deferred pass actually accumulates
(write.py:210): `tf.add_interval(epoch_container.start_time,
epoch_container.start_time)` — the epoch's start time is passed twice and its
stop time is never used. -/
def epochIntervalArgs (e : EpochWindow) : ℚ × ℚ :=
  (e.start_time, e.start_time)

/-- Namespace of the C1 end-to-end scenario: one raw-data series "series1". -/
def scenarioNS : FileNS :=
  { raw := ["series1"], stim := [], tmpl := [], container_source := "test.nwb" }

def scenarioSeries : Cont := .child .timeSeriesK "series1" (.file scenarioNS)

/-! ## TimeSeries rendering (C2) -/

inductive TSData
  | rawVal (v : DataValue)
  | link (ref : Cont)
  deriving DecidableEq

inductive TSStamps
  | rawVal (l : List ℚ)
  | link (ref : Cont)
  deriving DecidableEq

/-- Modelled from the spec: the default conversion factor of the ui module
(spec §3 lists conversion among descriptive attributes; the constant itself
is not under src and its value is not observable by any claim). -/
def defaultConversion : ℚ := 1

/-- Modelled from the spec: the default resolution of the ui module. -/
def defaultResolution : ℚ := 0

/-- Renderer view of a TimeSeries container: the fields
`TimeSeriesHdf5Renderer.time_series` reads.  `placement` is the container's
position in the ownership tree used by the path resolver. -/
structure TSRender where
  placement : Cont
  ancestry : String
  help : String
  description : String
  source : String
  comments : String
  data : TSData
  unit : String
  conversion : Option ℚ
  resolution : Option ℚ
  starting_time : Option ℚ
  rate : ℚ
  timestamps : TSStamps
  deriving DecidableEq

/-- Embedding of `TimeSeriesHdf5Renderer.time_series` (write.py:269-319).
Metadata attributes are set first.  For the data field, a TimeSeries
reference resolves the container's and the referenced series's locations and
emits a soft link (same file) or external link (different file) named "data"
targeting `reference_path + "/data"`; raw data becomes a literal dataset (the
bare `unit`/`conversion`/`resolution` names in the source are resolved to the
container's fields, with the ui default constants modelled from the spec and
Python truthiness on the `x if x else default` tests).  For timestamps, a
truthy `starting_time` (None and 0.0 are falsy) produces the starting_time
dataset; otherwise a timestamps reference first resolves the container's own
location and then reads `container._timeseries`, an attribute that is never
set on the spec's TimeSeries model (the field is `_timestamps`), embedded as
an AttributeError — the lines after it (write.py:309-314), which would add
the cross-file link under the name "data" rather than "timestamps", are
unreachable; raw timestamps become a literal dataset. -/
def time_series (c : TSRender) : Except RenderErr GroupB := do
  let g0 := (((((GroupB.empty.addAttr "ancestry" (.str c.ancestry)).addAttr
      "help" (.str c.help)).addAttr "description" (.str c.description)).addAttr
      "source" (.str c.source)).addAttr "comments" (.str c.comments)).addAttr
      "neurodata_type" (.str "TimeSeries")
  let g1 ←
    match c.data with
    | .link ref => do
        let cloc ← get_container_location c.placement
        let rloc ← get_container_location ref
        let data_path := rloc.2 ++ "/data"
        if cloc.1 ≠ rloc.1 then
          pure (g0.addLinkB "data" (.external rloc.1 data_path))
        else
          pure (g0.addLinkB "data" (.soft data_path))
    | .rawVal v =>
        pure (g0.addDataset "data" v
          [("unit", .str c.unit),
           ("conversion", .num (ratOrDefault c.conversion defaultConversion)),
           ("resolution", .num (ratOrDefault c.resolution defaultResolution))])
  if pyTruthyRat c.starting_time then
    pure (g1.addDataset "starting_time" (.num (c.starting_time.getD 0))
      [("rate", .num c.rate), ("unit", .str "Seconds")])
  else
    match c.timestamps with
    | .link _ => do
        let _cloc ← get_container_location c.placement
        Except.error (.attributeError "_timeseries")
    | .rawVal l =>
        pure (g1.addDataset "timestamps" (.numList l)
          [("interval", .natVal 1), ("unit", .str "Seconds")])

/-- Namespace of the C2 scenario: two raw-data series in one file. -/
def demoNS : FileNS :=
  { raw := ["seriesA", "seriesB"], stim := [], tmpl := [],
    container_source := "demo.nwb" }

def demoSeriesA : Cont := .child .timeSeriesK "seriesA" (.file demoNS)

def demoSeriesB : Cont := .child .timeSeriesK "seriesB" (.file demoNS)

/-- A TimeSeries whose data field references "seriesB" in the same file —
the C2 soft-link scenario. -/
def demoSeriesARender : TSRender :=
  { placement := demoSeriesA, ancestry := "TimeSeries", help := "h",
    description := "d", source := "s", comments := "c",
    data := .link demoSeriesB, unit := "volts", conversion := none,
    resolution := none, starting_time := some 1, rate := 1,
    timestamps := .rawVal [] }

/-! ## Static layout skeleton of `NwbFileHdf5Renderer.nwb_file`
(write.py:164-190) -/

/-- Embedding of the `general` group and its seven empty children
(write.py:165-175). -/
def generalGroup : GroupB :=
  .mk (GEntries.ofList [("devices", GroupB.empty),
    ("extracellular_ephys", GroupB.empty),
    ("intracellular_ephys", GroupB.empty),
    ("optogenetics", GroupB.empty),
    ("optophysiology", GroupB.empty),
    ("specifications", GroupB.empty),
    ("subject", GroupB.empty)]) [] [] []

/-- Embedding of the `stimulus` group (write.py:176-181): children `template`
and `presentation`, with the given entries filled in. -/
def stimulusGroup (tmplEntries presEntries : GEntries) : GroupB :=
  .mk (GEntries.ofList [("template", GroupB.mk tmplEntries [] [] []),
    ("presentation", GroupB.mk presEntries [] [] [])]) [] [] []

/-- Embedding of the `acquisition` group (write.py:182-187): children
`timeseries` and `images`. -/
def acquisitionGroup (tsEntries : GEntries) : GroupB :=
  .mk (GEntries.ofList [("timeseries", GroupB.mk tsEntries [] [] []),
    ("images", GroupB.empty)]) [] [] []

/-- Names of the children the declared layout creates under `stimulus`. -/
def stimulusLayoutChildNames : List String :=
  (GEntries.toList (GroupB.groupsOf (stimulusGroup .nil .nil))).map Prod.fst

/-! ## Deep merge of builder trees

Modelled from the spec (§4.2): h5tools is not under src; `deep_merge` /
`deep_update` recursively unions non-conflicting children, and a conflicting
redefinition of a scalar (dataset, attribute, link) under one name is a
MergeConflictError; groups under the same name merge recursively. -/

/-- Merge of two named scalar collections: a fresh name is appended, the same
name with an equal value is kept once, the same name with a different value
is a MergeConflictError. -/
def mergeNamed {α : Type} [DecidableEq α] (xs : List (String × α)) :
    List (String × α) → Except RenderErr (List (String × α))
  | [] => .ok xs
  | (n, v) :: t =>
      match dictGet xs n with
      | none => mergeNamed (xs ++ [(n, v)]) t
      | some v0 => if v0 = v then mergeNamed xs t else .error (.mergeConflict n)

mutual
/-- Merge of the second builder tree into the first (the source calls
`ret.deep_update(builder)`, write.py:105). -/
def deep_update : GroupB → GroupB → Except RenderErr GroupB
  | .mk ga da aa la, .mk gb db ab lb => do
      let g ← mergeEntries ga gb
      let d ← mergeNamed da db
      let a ← mergeNamed aa ab
      let l ← mergeNamed la lb
      .ok (.mk g d a l)
/-- Merge of the second group-entry list into the first, recursing into
groups that share a name. -/
def mergeEntries (ga : GEntries) : GEntries → Except RenderErr GEntries
  | .nil => .ok ga
  | .cons n sub rest =>
      match ga.findEntry n with
      | none => mergeEntries (ga.setEntry n sub) rest
      | some sub0 => do
          let m ← deep_update sub0 sub
          mergeEntries (ga.setEntry n m) rest
end

/-! ## Type-dispatched rendering (C7) -/

inductive CType
  | objT
  | nwbContainerT
  | timeSeriesT
  | electricalSeriesT
  | spatialSeriesT
  | moduleT
  | ifaceT
  | clusteringT
  | nwbfileT
  deriving DecidableEq

/-- Modelled from the spec: the declared ancestor chain of each ui container
class (the ui module write.py imports is not under src; §9 prescribes an
explicit ancestor list per type).  Each list mirrors Python's `__mro__`:
most-derived first, terminating with the object root. -/
def mro : CType → List CType
  | .objT => [.objT]
  | .nwbContainerT => [.nwbContainerT, .objT]
  | .timeSeriesT => [.timeSeriesT, .nwbContainerT, .objT]
  | .electricalSeriesT => [.electricalSeriesT, .timeSeriesT, .nwbContainerT, .objT]
  | .spatialSeriesT => [.spatialSeriesT, .timeSeriesT, .nwbContainerT, .objT]
  | .moduleT => [.moduleT, .nwbContainerT, .objT]
  | .ifaceT => [.ifaceT, .nwbContainerT, .objT]
  | .clusteringT => [.clusteringT, .ifaceT, .nwbContainerT, .objT]
  | .nwbfileT => [.nwbfileT, .nwbContainerT, .objT]

/-- Embedding of `Hdf5ContainerRenderer.get_object_properties` (write.py:96-99):
`list(reversed(container.__class__.__mro__[:-1]))` — drop `object`, then
reverse, yielding the ancestor chain ordered most-base to most-derived. -/
def get_object_properties (t : CType) : List CType :=
  ((mro t).dropLast).reverse

/-- Modelled from the spec: BaseObjectHandler's procedure collection (the
utils module is not under src; §4.4 — collect every procedure registered for
any type in the container's ancestor chain).  `reg` is the registry the
`procedure` decorator fills, indexed by the registered type. -/
def collectProcedures {α : Type} (reg : CType → List (α → GroupB)) (t : CType) :
    List (α → GroupB) :=
  (get_object_properties t).flatMap reg

/-- Modelled from the spec: BaseObjectHandler.process applies each collected
procedure to the container, producing one partial builder per procedure, in
collection order. -/
def baseProcess {α : Type} (reg : CType → List (α → GroupB)) (t : CType) (c : α) :
    List GroupB :=
  (collectProcedures reg t).map (fun p => p c)

/-- Embedding of `Hdf5ContainerRenderer.process` (write.py:101-106): take the
per-type partial builders from the generic handler (the `super()` call spells
the class `HDFContainerRenderer`, a misspelling of the evident
`Hdf5ContainerRenderer`), use the first as the accumulator (`result[0]` — an
IndexError when no procedure applies) and fold a `deep_update` of each
remaining partial result into it. -/
def rendererProcess {α : Type} (reg : CType → List (α → GroupB)) (t : CType) (c : α) :
    Except RenderErr GroupB :=
  match baseProcess reg t c with
  | [] => .error .indexError
  | r :: rs => rs.foldlM deep_update r

/-- Sample partial builder of the TimeSeries-registered `time_series`
procedure, for the C7 witness. -/
def demoTsBuilder : GroupB := GroupB.empty.addAttr "neurodata_type" (.str "TimeSeries")

/-- Sample partial builder of the TimeSeries-registered
`abstract_feature_series` procedure, for the C7 witness. -/
def demoAfsBuilder : GroupB := GroupB.empty.addDataset "features" (.natList [1]) []

/-- Sample partial builder of the ElectricalSeries-registered
`electrical_series` procedure, for the C7 witness. -/
def demoEsBuilder : GroupB := GroupB.empty.addDataset "electrode_idx" (.natList [0]) []

/-- The registration pattern of `TimeSeriesHdf5Renderer` (write.py:269, 321,
328): two procedures registered against TimeSeries, one against
ElectricalSeries. -/
def demoRegistry : CType → List (Unit → GroupB)
  | .timeSeriesT => [fun _ => demoTsBuilder, fun _ => demoAfsBuilder]
  | .electricalSeriesT => [fun _ => demoEsBuilder]
  | _ => []

/-! ## Writer (C6) -/

inductive WEvent
  | createGroup (path : String)
  | createDataset (path : String)
  | setAttribute (path : String) (name : String)
  | softLink (path : String) (target : String)
  | hardLink (path : String) (target : String)
  | externalLink (path : String) (file_path : String) (target : String)
  deriving DecidableEq

/-- Join of a parent path and a child name; the backend root is "". -/
def joinPath (p n : String) : String :=
  if p = "" then n else p ++ "/" ++ n

mutual
/-- Modelled from the spec (§4.6): `h5tools.write_group` (not under src) —
create the group, then depth-first its subgroups, then its datasets and
attributes, collecting every link encountered (keyed by its full intended
path) into a deferred collection instead of creating it; returns the backend
events emitted and the deferred links. -/
def write_group (parent name : String) : GroupB → List WEvent × List (String × LinkB)
  | .mk gs ds as ls =>
      (WEvent.createGroup (joinPath parent name)
          :: ((write_entries (joinPath parent name) gs).1
              ++ ds.map (fun p => WEvent.createDataset (joinPath (joinPath parent name) p.1))
              ++ as.map (fun p => WEvent.setAttribute (joinPath parent name) p.1)),
       ls.map (fun p => (joinPath (joinPath parent name) p.1, p.2))
         ++ (write_entries (joinPath parent name) gs).2)
/-- Commit of a list of named subgroups, concatenating events and deferred
links in order. -/
def write_entries (parent : String) : GEntries → List WEvent × List (String × LinkB)
  | .nil => ([], [])
  | .cons n g rest =>
      ((write_group parent n g).1 ++ (write_entries parent rest).1,
       (write_group parent n g).2 ++ (write_entries parent rest).2)
end

/-- Mapping of a deferred link to its backend creation event (write.py:82-88):
an external link carries the other file's path, a hard link aliases a path in
this file, a soft link stores a path string. -/
def linkEvent (p : String × LinkB) : WEvent :=
  match p.2 with
  | .soft target => .softLink p.1 target
  | .hard target => .hardLink p.1 target
  | .external f target => .externalLink p.1 f target

/-- One step of the top-level loop of `Hdf5Writer.write` (write.py:74-80):
commit one top-level group, accumulating its events and deferred links
(`links.update(tmp_links)` — the keys are full paths, distinct across
groups, so the dict update is an append). -/
def writeStep (acc : List WEvent × List (String × LinkB)) (p : String × GroupB) :
    List WEvent × List (String × LinkB) :=
  (acc.1 ++ (write_group "" p.1 p.2).1, acc.2 ++ (write_group "" p.1 p.2).2)

/-- Embedding of `Hdf5Writer.write` (write.py:67-89), with the h5py handle
abstracted into an event trace: the loop walks ONLY the top-level groups of
the root builder (`builder.groups.items()`); the root builder's own datasets,
attributes and links are never visited.  After the walk, every deferred link
is created. -/
def writeTrace (b : GroupB) : List WEvent :=
  ((GEntries.toList b.groupsOf).foldl writeStep ([], [])).1
    ++ ((GEntries.toList b.groupsOf).foldl writeStep ([], [])).2.map linkEvent

def isLinkEvent : WEvent → Bool
  | .softLink _ _ => true
  | .hardLink _ _ => true
  | .externalLink _ _ _ => true
  | _ => false

/-- Scanner for the structural-before-link ordering: once a link event has
appeared in the trace, only link events may follow. -/
def noStructuralAfterLink : List WEvent → Bool
  | [] => true
  | e :: t => if isLinkEvent e then t.all isLinkEvent else noStructuralAfterLink t

mutual
/-- The structural objects (group, datasets, attributes, subgroups) of a named
builder subtree, as the backend events their commit would emit. -/
def structuralItems (parent name : String) : GroupB → List WEvent
  | .mk gs ds as _ =>
      WEvent.createGroup (joinPath parent name)
        :: (ds.map (fun p => WEvent.createDataset (joinPath (joinPath parent name) p.1))
            ++ as.map (fun p => WEvent.setAttribute (joinPath parent name) p.1)
            ++ structuralItemsEntries (joinPath parent name) gs)
/-- The structural objects of a list of named subgroups. -/
def structuralItemsEntries (parent : String) : GEntries → List WEvent
  | .nil => []
  | .cons n g rest => structuralItems parent n g ++ structuralItemsEntries parent rest
end

/-- The structural objects of the whole builder tree: the root builder's own
datasets and attributes plus everything inside its top-level groups. -/
def rootStructuralItems : GroupB → List WEvent
  | .mk gs ds as _ =>
      ds.map (fun p => WEvent.createDataset p.1)
        ++ as.map (fun p => WEvent.setAttribute "" p.1)
        ++ structuralItemsEntries "" gs

/-- The C6 claim as stated, as a decidable check on one builder: every group,
dataset and attribute of the tree is committed somewhere in the write trace,
and no structural event follows a link event. -/
def claimC6holds (b : GroupB) : Bool :=
  (rootStructuralItems b).all (fun e => (writeTrace b).contains e)
    && noStructuralAfterLink (writeTrace b)

/-- A root builder carrying one root-level dataset and one top-level group
that contains a soft link. -/
def c6Builder : GroupB :=
  .mk (GEntries.ofList [("grp", GroupB.empty.addLinkB "lnk" (.soft "grp/target"))])
    [("rootDataset", ⟨.str "x", []⟩)] [] []

/-! ## Rendering of the whole file (C8)

Embedding of `NwbFileHdf5Renderer.nwb_file` (write.py:162-228).  write.py
imports its NWBFile, TimeSeries and Module classes from the pynwb.ui package,
which is not under src, so the accessors those loops read
(`container.file_identifier`, the modality-keyed `container.timeseries`, the
`_ts_locations` module global) are modelled from the spec; everything else
follows the source. -/

/-- Python truthiness of an optional integer: `None` and `0` are falsy. -/
def pyTruthyNat : Option Nat → Bool
  | none => false
  | some n => decide (n ≠ 0)

/-- Renderer view of one epoch-timeseries membership entry (write.py:204-210):
the `count`/`idx_start` pair and the referenced series's placement in the
ownership tree. -/
structure EpochTSEntry where
  count : Option Nat
  idx_start : Option Nat
  ref : Cont
  deriving DecidableEq

structure EpochModel where
  start_time : ℚ
  stop_time : ℚ
  description : String
  timeseries : List (String × EpochTSEntry)
  deriving DecidableEq

/-- Modelled from the spec: EpochHdf5Renderer (not under src) renders an
epoch's subtree from the epoch's own fields (§3); the exact dataset set is
not observable by the claims — what matters is that it is a function of the
epoch alone. -/
def epoch_render (e : EpochModel) : GroupB :=
  ((GroupB.empty.addDataset "start_time" (.num e.start_time) []).addDataset
      "stop_time" (.num e.stop_time) []).addDataset
      "description" (.str e.description) []

/-- Embedding of the deferred-indexing entry check inside the epoch loop
(write.py:205-210): an entry whose `count` and `idx_start` are not both
truthy resolves the referenced series's location — which fails for every
container (top-container slip) — and, had that succeeded, would call
`TimeFinder()` without its required `time_intervals` argument (a TypeError;
the class also has no `add_interval` method). -/
def epochEntryCheck (entry : EpochTSEntry) : Except RenderErr Unit :=
  if pyTruthyNat entry.count && pyTruthyNat entry.idx_start then .ok ()
  else
    match get_container_location entry.ref with
    | .error e => .error e
    | .ok _ => .error (.typeError "TimeFinder() missing time_intervals")

def epochChecks : List (String × EpochTSEntry) → Except RenderErr Unit
  | [] => .ok ()
  | (_, entry) :: t =>
      match epochEntryCheck entry with
      | .error e => .error e
      | .ok _ => epochChecks t

/-- Embedding of the epoch loop of `nwb_file` (write.py:198-213): each epoch
is rendered and added to the epochs group under its name, and its
timeseries entries go through the deferred-indexing check. -/
def renderEpochsPass : List (String × EpochModel) → Except RenderErr GEntries
  | [] => .ok .nil
  | (n, e) :: t =>
      match epochChecks e.timeseries with
      | .error err => .error err
      | .ok _ =>
          match renderEpochsPass t with
          | .error err => .error err
          | .ok rest => .ok (.cons n (epoch_render e) rest)

/-- Spec §4.2 `add_group` semantics: a name already present at a level is a
DuplicateNameError. -/
def addEntryChecked (es : GEntries) (n : String) (g : GroupB) :
    Except RenderErr GEntries :=
  match es.findEntry n with
  | some _ => .error (.duplicateName n)
  | none => .ok (es.append (.cons n g .nil))

/-- Embedding of `TimeSeriesHdf5Renderer.abstract_feature_series`
(write.py:321-326): registered against the base TimeSeries type, it reads
`container.features` and `container.units` — fields the spec gives only to
the AbstractFeatureSeries variant (§3) — so on every other TimeSeries the
first access is an AttributeError. -/
def abstract_feature_series (_c : TSRender) : Except RenderErr GroupB :=
  .error (.attributeError "features")

/-- The composite render of one TimeSeries container through
`Hdf5ContainerRenderer.process` (write.py:101-106 applied to the
TimeSeries-registered procedures, base to derived): `time_series` first, then
`abstract_feature_series`, their partial builders merged by `deep_update`. -/
def renderTimeSeriesProcess (c : TSRender) : Except RenderErr GroupB := do
  let b1 ← time_series c
  let b2 ← abstract_feature_series c
  deep_update b1 b2

/-- Embedding of the inner time-series loop of `nwb_file` (write.py:218-220):
every rendered series is added under the stale variable `name` — the last
epoch name bound at write.py:201 — so two series in one modality collide with
DuplicateNameError. -/
def renderTsGroup (staleName : String) :
    GEntries → List (String × TSRender) → Except RenderErr GEntries
  | acc, [] => .ok acc
  | acc, (_, c) :: t =>
      match renderTimeSeriesProcess c with
      | .error e => .error e
      | .ok g =>
          match addEntryChecked acc staleName g with
          | .error e => .error e
          | .ok acc2 => renderTsGroup staleName acc2 t

/-- Renderer view of an Interface (write.py:353-362). -/
structure IfaceModel where
  iface_type : String
  help : String
  source : String
  deriving DecidableEq

structure ModuleModel where
  interfaces : List (String × IfaceModel)
  deriving DecidableEq

/-- Renderer view of the NWBFile container as `nwb_file` reads it.  The
modality split mirrors the spec's three namespaces; `file_identifier` and
`start_time` are the derived identifier and session start time (§3),
rendered as strings. -/
structure RenderFile where
  file_identifier : String
  session_description : String
  start_time : String
  epochs : List (String × EpochModel)
  raw_ts : List (String × TSRender)
  stim_ts : List (String × TSRender)
  tmpl_ts : List (String × TSRender)
  modules : List (String × ModuleModel)
  deriving DecidableEq

/-- Embedding of the modality loop of `nwb_file` (write.py:215-220) over the
spec-modelled `container.timeseries` accessor (raw, stimulus, template in
that order) and `_ts_locations` (the three layout locations).  When every
modality is empty the loop body never runs; otherwise the stale `name`
variable is read — a NameError if no epoch loop iteration ever bound it. -/
def renderTsPass (f : RenderFile) :
    Except RenderErr (GEntries × GEntries × GEntries) :=
  if f.raw_ts.isEmpty && f.stim_ts.isEmpty && f.tmpl_ts.isEmpty then
    .ok (.nil, .nil, .nil)
  else
    match (f.epochs.map Prod.fst).getLast? with
    | none => .error (.nameError "name")
    | some staleName =>
        match renderTsGroup staleName .nil f.raw_ts with
        | .error e => .error e
        | .ok acq =>
            match renderTsGroup staleName .nil f.stim_ts with
            | .error e => .error e
            | .ok stim =>
                match renderTsGroup staleName .nil f.tmpl_ts with
                | .error e => .error e
                | .ok tmpl => .ok (acq, stim, tmpl)

/-- Embedding of `InterfaceHdf5Renderer.interface` (write.py:355-362). -/
def iface_render (i : IfaceModel) : GroupB :=
  ((GroupB.empty.addAttr "help" (.str i.help)).addAttr
      "neurodata_type" (.str "Interface")).addAttr "source" (.str i.source)

/-- Embedding of `ModuleHdf5Renderer.module` (write.py:343-350): one group
per interface, named by `interface.iface_type`. -/
def module_render_entries (acc : GEntries) :
    List (String × IfaceModel) → Except RenderErr GEntries
  | [] => .ok acc
  | (_, i) :: t =>
      match addEntryChecked acc i.iface_type (iface_render i) with
      | .error e => .error e
      | .ok acc2 => module_render_entries acc2 t

/-- Embedding of the module loop of `nwb_file` (write.py:222-226): each
module renders to a group of its interfaces and is added under its name. -/
def renderModulesPass (acc : GEntries) :
    List (String × ModuleModel) → Except RenderErr GEntries
  | [] => .ok acc
  | (n, m) :: t =>
      match module_render_entries .nil m.interfaces with
      | .error e => .error e
      | .ok es =>
          match addEntryChecked acc n (GroupB.mk es [] [] []) with
          | .error e => .error e
          | .ok acc2 => renderModulesPass acc2 t

/-- Modelled from the spec: `FILE_VERSION_STR` is referenced at write.py:192
but defined only in commented-out code; the live version attribute in
file.py:110 is '1.0.4'. -/
def FILE_VERSION_STR : String := "NWB-1.0.4"

/-- Embedding of `NwbFileHdf5Renderer.nwb_file` (write.py:162-228).  `now` is
the wall-clock string `time.ctime()` read at write.py:195 while building the
`file_create_date` dataset.  The static skeleton, root datasets and the three
loops follow the source order (the misspelt `GroupBulder()` at write.py:164
is resolved to the evident GroupBuilder). -/
def nwb_file_builder (f : RenderFile) (now : String) : Except RenderErr GroupB :=
  match renderEpochsPass f.epochs with
  | .error e => .error e
  | .ok epochEntries =>
    match renderTsPass f with
    | .error e => .error e
    | .ok tsGroups =>
      match renderModulesPass .nil f.modules with
      | .error e => .error e
      | .ok moduleEntries =>
        .ok (GroupB.mk (GEntries.ofList
          [("general", generalGroup),
           ("stimulus", stimulusGroup tsGroups.2.2 tsGroups.2.1),
           ("acquisition", acquisitionGroup tsGroups.1),
           ("epochs", GroupB.mk epochEntries [] [] []),
           ("processing", GroupB.mk moduleEntries [] [] []),
           ("analysis", GroupB.empty)])
          [("nwb_version", ⟨.str FILE_VERSION_STR, []⟩),
           ("identifier", ⟨.str f.file_identifier, []⟩),
           ("session_description", ⟨.str f.session_description, []⟩),
           ("file_create_date", ⟨.strList [now], []⟩),
           ("session_start_time", ⟨.str f.start_time, []⟩)]
          [] [])

/-- Removal of the root-level `file_create_date` dataset from a builder. -/
def eraseCreateDate : GroupB → GroupB
  | .mk gs ds as ls => .mk gs (ds.filter (fun p => !(p.1 == "file_create_date"))) as ls

def eraseCreateDateE : Except RenderErr GroupB → Except RenderErr GroupB
  | .error e => .error e
  | .ok b => .ok (eraseCreateDate b)

/-- Value of one root-level dataset of a render result. -/
def rootDatasetValue (r : Except RenderErr GroupB) (n : String) : Option DataValue :=
  match r with
  | .error _ => none
  | .ok b => (dictGet b.datasetsOf n).map DatasetB.payload

/-- The C8 scenario file: a session with one fully indexed epoch and no time
series or modules, so the render completes. -/
def c8File : RenderFile :=
  { file_identifier := "demo.nwb 2017-01-01T00:00:00Z",
    session_description := "test",
    start_time := "2017-01-01T00:00:00Z",
    epochs := [("ep1", EpochModel.mk 10 20 "e"
      [("series1", EpochTSEntry.mk (some 11) (some 10) scenarioSeries)])],
    raw_ts := [], stim_ts := [], tmpl_ts := [], modules := [] }

/-! # Theorems -/

/-! ## Dictionary lemmas -/

theorem dictKeys_nil {α : Type} : dictKeys ([] : List (String × α)) = [] := rfl

theorem dictKeys_cons {α : Type} (k0 : String) (v0 : α) (t : List (String × α)) :
    dictKeys ((k0, v0) :: t) = k0 :: dictKeys t := rfl

theorem dictKeys_append {α : Type} (d1 d2 : List (String × α)) :
    dictKeys (d1 ++ d2) = dictKeys d1 ++ dictKeys d2 := by
  simp [dictKeys]

theorem dictGet_dictSet_self {α : Type} (d : List (String × α)) (k : String) (v : α) :
    dictGet (dictSet d k v) k = some v := by
  induction d with
  | nil => simp [dictSet, dictGet]
  | cons h t ih =>
      obtain ⟨k0, v0⟩ := h
      by_cases hk : k0 = k
      · simp [dictSet, hk, dictGet]
      · simp [dictSet, hk, dictGet, ih]

theorem dictGet_eq_none {α : Type} (d : List (String × α)) (k : String)
    (h : k ∉ dictKeys d) : dictGet d k = none := by
  induction d with
  | nil => rfl
  | cons hd t ih =>
      obtain ⟨k0, v0⟩ := hd
      rw [dictKeys_cons, List.mem_cons] at h
      push_neg at h
      simp only [dictGet]
      rw [if_neg (Ne.symm h.1)]
      exact ih h.2

theorem mem_dictKeys_dictSet {α : Type} (d : List (String × α)) (k : String) (v : α)
    (n : String) : n ∈ dictKeys (dictSet d k v) ↔ n = k ∨ n ∈ dictKeys d := by
  induction d with
  | nil => simp [dictSet, dictKeys]
  | cons hd t ih =>
      obtain ⟨k0, v0⟩ := hd
      by_cases hk : k0 = k
      · subst hk
        have hd : dictSet ((k0, v0) :: t) k0 v = (k0, v) :: t := by
          simp [dictSet]
        rw [hd, dictKeys_cons, dictKeys_cons, List.mem_cons]
        tauto
      · simp only [dictSet, if_neg hk, dictKeys, List.map_cons, List.mem_cons]
        rw [show (List.map Prod.fst (dictSet t k v)) = dictKeys (dictSet t k v) from rfl] at *
        constructor
        · rintro (h | h)
          · exact Or.inr (Or.inl h)
          · rcases (ih).mp h with h' | h'
            · exact Or.inl h'
            · exact Or.inr (Or.inr h')
        · rintro (h | h | h)
          · exact Or.inr ((ih).mpr (Or.inl h))
          · exact Or.inl h
          · exact Or.inr ((ih).mpr (Or.inr h))

theorem dictSet_fresh {α : Type} (d : List (String × α)) (k : String) (v : α)
    (h : k ∉ dictKeys d) : dictSet d k v = d ++ [(k, v)] := by
  induction d with
  | nil => rfl
  | cons hd t ih =>
      obtain ⟨k0, v0⟩ := hd
      simp only [dictKeys, List.map_cons, List.mem_cons] at h
      push_neg at h
      simp only [dictSet, if_neg (Ne.symm h.1), List.cons_append]
      rw [ih (by simpa [dictKeys] using h.2)]

theorem dictGet_append_of_not_left {α : Type} (d1 d2 : List (String × α)) (k : String)
    (h : k ∉ dictKeys d1) : dictGet (d1 ++ d2) k = dictGet d2 k := by
  induction d1 with
  | nil => rfl
  | cons hd t ih =>
      obtain ⟨k0, v0⟩ := hd
      simp only [dictKeys, List.map_cons, List.mem_cons] at h
      push_neg at h
      simp only [List.cons_append, dictGet, if_neg (Ne.symm h.1)]
      exact ih (by simpa [dictKeys] using h.2)

/-! ## Rational helper correctness -/

theorem ratAdd_eq (a b : ℚ) : ratAdd a b = a + b := by
  rw [ratAdd, Rat.add_def]
  rw [Rat.divInt_eq_div, Rat.normalize_eq_mkRat, Rat.mkRat_eq_div]
  push_cast
  ring

theorem ratDiv_eq (a b : ℚ) : ratDiv a b = a / b := by
  rcases eq_or_ne b 0 with hb | hb
  · subst hb
    simp [ratDiv]
  · have hbn : (b.num : ℚ) ≠ 0 := by
      exact_mod_cast Rat.num_ne_zero.mpr hb
    have had : ((a.den : ℚ)) ≠ 0 := by
      exact_mod_cast a.den_nz
    have hbd : ((b.den : ℚ)) ≠ 0 := by
      exact_mod_cast b.den_nz
    rw [ratDiv, Rat.divInt_eq_div]
    push_cast
    have key : ((a.num : ℚ) * b.den) / ((b.num : ℚ) * a.den)
        = ((a.num : ℚ) / a.den) / ((b.num : ℚ) / b.den) := by
      field_simp
      exact Or.inl (mul_comm _ _)
    rw [key, Rat.num_div_den, Rat.num_div_den]

/-! ## C5: electrode-group insertion indices -/

theorem registerAll_idx (names : List String) (f : NWBFileSt)
    (hfresh : ∀ n ∈ names, n ∉ dictKeys f.ec_electrode_idx) (hnd : names.Nodup) :
    (registerAll f names).ec_electrode_idx
      = f.ec_electrode_idx
        ++ (List.enumFrom f.ec_electrode_idx.length names).map (fun p => (p.2, p.1)) := by
  induction names generalizing f with
  | nil => simp [registerAll]
  | cons n t ih =>
      have hfn : n ∉ dictKeys f.ec_electrode_idx := hfresh n (List.mem_cons_self n t)
      have hstep : registerAll f (n :: t)
          = registerAll ((set_electrode_group f (EGroup.mk n)).1) t := rfl
      rw [hstep]
      set f1 := (set_electrode_group f (EGroup.mk n)).1 with hf1
      have hidx1 : f1.ec_electrode_idx
          = f.ec_electrode_idx ++ [(n, f.ec_electrode_idx.length)] := by
        rw [hf1]
        simp only [set_electrode_group]
        exact dictSet_fresh _ _ _ hfn
      have hfresh1 : ∀ m ∈ t, m ∉ dictKeys f1.ec_electrode_idx := by
        intro m hm
        rw [hidx1]
        simp only [dictKeys, List.map_append, List.mem_append, List.map_cons,
          List.map_nil, List.mem_cons, List.not_mem_nil]
        push_neg
        refine ⟨?_, ?_, fun h => h⟩
        · exact hfresh m (List.mem_cons_of_mem n hm)
        · intro hmn
          subst hmn
          exact absurd hm ((List.nodup_cons.mp hnd).1)
      have hlen1 : f1.ec_electrode_idx.length = f.ec_electrode_idx.length + 1 := by
        rw [hidx1]; simp
      rw [ih f1 hfresh1 (List.nodup_cons.mp hnd).2, hlen1, hidx1]
      simp [List.enumFrom, List.append_assoc]

theorem dictGet_enumFrom (names : List String) (hnd : names.Nodup)
    (i : Nat) (hi : i < names.length) (base : Nat) :
    dictGet ((List.enumFrom base names).map (fun p => (p.2, p.1)))
        (names.get ⟨i, hi⟩) = some (base + i) := by
  induction names generalizing i base with
  | nil => exact absurd hi (by simp)
  | cons n t ih =>
      cases i with
      | zero => simp [List.enumFrom, dictGet]
      | succ j =>
          have hj : j < t.length := Nat.lt_of_succ_lt_succ hi
          have hget : (n :: t).get ⟨j + 1, hi⟩ = t.get ⟨j, hj⟩ := rfl
          have hne : n ≠ t.get ⟨j, hj⟩ := by
            intro h
            exact (List.nodup_cons.mp hnd).1 (h ▸ List.get_mem t j hj)
          simp only [List.enumFrom, List.map_cons, hget, dictGet, if_neg hne]
          rw [ih (List.nodup_cons.mp hnd).2 j hj (base + 1)]
          congr 1
          omega

/-- C5: in a registration sequence of distinctly named electrode groups on an
NWBFile, the group registered at (zero-based) position i receives index i, and
`get_electrode_group_idx` answers the same on the group's name and on the
group object itself. -/
theorem C5_electrode_group_insertion_index (names : List String) (hnd : names.Nodup)
    (i : Nat) (hi : i < names.length) :
    get_electrode_group_idx (registerAll emptyNWBFileSt names)
        (Sum.inl (names.get ⟨i, hi⟩)) = some i
    ∧ ∀ (f : NWBFileSt) (g : EGroup),
        get_electrode_group_idx f (Sum.inr g)
          = get_electrode_group_idx f (Sum.inl g.name) := by
  constructor
  · show dictGet (registerAll emptyNWBFileSt names).ec_electrode_idx
        (names.get ⟨i, hi⟩) = some i
    rw [registerAll_idx names emptyNWBFileSt (by simp [emptyNWBFileSt, dictKeys]) hnd]
    have h0 : (emptyNWBFileSt.ec_electrode_idx : List (String × Nat)) = [] := rfl
    rw [h0]
    simpa using dictGet_enumFrom names hnd i hi 0
  · intro f g
    rfl

/-- Witness for C5: registering "shankA", "shankB", "shankC" in that order,
the group registered after two others ("shankC") receives index 2. -/
theorem C5_electrode_group_insertion_index_witness :
    (["shankA", "shankB", "shankC"].Nodup ∧ (2 : Nat) < 3)
    ∧ get_electrode_group_idx (registerAll emptyNWBFileSt ["shankA", "shankB", "shankC"])
        (Sum.inl "shankC") = some 2 := by
  refine ⟨⟨by decide, by decide⟩, ?_⟩
  exact (C5_electrode_group_insertion_index ["shankA", "shankB", "shankC"]
    (by decide) 2 (by decide)).1

/-! ## C10: unregistered lookups -/

/-- C10: `get_electrode_group_idx` returns `none` for any name (or group
object whose name) that was never registered; it has no raising path for
inputs of the declared types. -/
theorem C10_unregistered_idx_is_none (f : NWBFileSt) (x : String ⊕ EGroup)
    (h : egroup_name x ∉ dictKeys f.ec_electrode_idx) :
    get_electrode_group_idx f x = none :=
  dictGet_eq_none f.ec_electrode_idx (egroup_name x) h

/-- Witness for C10: a name that was never registered yields `none`. -/
theorem C10_unregistered_idx_is_none_witness :
    ("probe9" ∉ dictKeys (registerAll emptyNWBFileSt ["shankA"]).ec_electrode_idx)
    ∧ get_electrode_group_idx (registerAll emptyNWBFileSt ["shankA"])
        (Sum.inl "probe9") = none :=
  ⟨by decide,
    C10_unregistered_idx_is_none (registerAll emptyNWBFileSt ["shankA"])
      (Sum.inl "probe9") (by decide)⟩

/-! ## C4: duplicate attach to the raw-data namespace -/

/-- C4 counterexample: attaching a second TimeSeries named "series1" does not
raise and does not preserve the first one — the raw-data dict afterwards maps
"series1" to the second series, so the claimed DuplicateNameError-and-keep
behaviour is false on the code. -/
theorem C4_duplicate_attach_replaces :
    ¬ dictGet (add_raw_timeseries (add_raw_timeseries emptyNWBFileSt tsFirst)
        tsSecond).raw_data "series1" = some tsFirst := by
  decide

/-- C4 amended: attaching a TimeSeries under a name already present in the
raw-data namespace replaces the previously attached series (dict assignment,
no error, and no backend I/O anywhere in the attach path). -/
theorem C4_attach_overwrites (f : NWBFileSt) (t1 t2 : TSModel)
    (h : t1.name = t2.name) :
    dictGet (add_raw_timeseries (add_raw_timeseries f t1) t2).raw_data t1.name
      = some t2 := by
  show dictGet (dictSet (dictSet f.raw_data t1.name t1) t2.name t2) t1.name = some t2
  rw [h]
  exact dictGet_dictSet_self _ _ _

/-- Witness for C4 amended: the concrete duplicate attach stores the second
series. -/
theorem C4_attach_overwrites_witness :
    tsFirst.name = tsSecond.name
    ∧ dictGet (add_raw_timeseries (add_raw_timeseries emptyNWBFileSt tsFirst)
        tsSecond).raw_data tsFirst.name = some tsSecond :=
  ⟨by decide, C4_attach_overwrites emptyNWBFileSt tsFirst tsSecond (by decide)⟩

/-! ## C9: the three time-series namespaces are not kept disjoint -/

theorem targetDict_applyTsOp (f : NWBFileSt) (op : TsAddOp) (t : TsTarget) :
    targetDict (applyTsOp f op) t
      = if op.target = t then dictSet (targetDict f t) op.ts.name op.ts
        else targetDict f t := by
  cases op with
  | mk tgt ts => cases tgt <;> cases t <;> simp [applyTsOp, targetDict,
      add_raw_timeseries, add_stimulus, add_stimulus_template, set_timeseries]

theorem mem_targetDict_applyTsOps (ops : List TsAddOp) (f : NWBFileSt)
    (t : TsTarget) (n : String) :
    n ∈ dictKeys (targetDict (applyTsOps f ops) t)
      ↔ n ∈ dictKeys (targetDict f t)
        ∨ ∃ o ∈ ops, o.target = t ∧ o.ts.name = n := by
  induction ops generalizing f with
  | nil => simp [applyTsOps]
  | cons o rest ih =>
      have hstep : applyTsOps f (o :: rest) = applyTsOps (applyTsOp f o) rest := rfl
      rw [hstep, ih]
      rw [targetDict_applyTsOp]
      by_cases ho : o.target = t
      · rw [if_pos ho, mem_dictKeys_dictSet]
        constructor
        · rintro ((h | h) | h)
          · exact Or.inr ⟨o, List.mem_cons_self o rest, ho, h.symm⟩
          · exact Or.inl h
          · rcases h with ⟨o2, ho2, h2⟩
            exact Or.inr ⟨o2, List.mem_cons_of_mem o ho2, h2⟩
        · rintro (h | ⟨o2, ho2, h2, h3⟩)
          · exact Or.inl (Or.inr h)
          · rcases List.mem_cons.mp ho2 with h4 | h4
            · subst h4
              exact Or.inl (Or.inl h3.symm)
            · exact Or.inr ⟨o2, h4, h2, h3⟩
      · rw [if_neg ho]
        constructor
        · rintro (h | ⟨o2, ho2, h2⟩)
          · exact Or.inl h
          · exact Or.inr ⟨o2, List.mem_cons_of_mem o ho2, h2⟩
        · rintro (h | ⟨o2, ho2, h2, h3⟩)
          · exact Or.inl h
          · rcases List.mem_cons.mp ho2 with h4 | h4
            · subst h4
              exact absurd h2 ho
            · exact Or.inr ⟨o2, h4, h2, h3⟩

theorem is_classified_iff (f : NWBFileSt) (ts : TSModel) (t : TsTarget) :
    ts_exists ts (targetDict f t) = true ↔ ts.name ∈ dictKeys (targetDict f t) := by
  simp [ts_exists]

/-- C9 counterexample: after adding a series named "series1" to the raw-data
namespace and another series of the same name to the stimulus namespace, the
name belongs to both namespaces — `is_raw_data` and `is_stimulus` both hold,
so the three collections are not disjoint after arbitrary add sequences. -/
theorem C9_namespaces_not_disjoint :
    is_raw_data (applyTsOps emptyNWBFileSt
        [⟨.raw, ⟨"series1", "sA"⟩⟩, ⟨.stim, ⟨"series1", "sB"⟩⟩]) ⟨"series1", "sA"⟩ = true
    ∧ is_stimulus (applyTsOps emptyNWBFileSt
        [⟨.raw, ⟨"series1", "sA"⟩⟩, ⟨.stim, ⟨"series1", "sB"⟩⟩]) ⟨"series1", "sA"⟩ = true := by
  decide

/-- C9 amended: the code itself never enforces disjointness; disjointness of
the three namespaces holds exactly when the add sequence itself never routes
one name to two different collections.  Starting from an empty file, if every
pair of operations sharing a series name targets the same collection, then no
TimeSeries is classified into two namespaces at once. -/
theorem C9_disjoint_without_cross_adds (ops : List TsAddOp)
    (h : ∀ o1 ∈ ops, ∀ o2 ∈ ops, o1.ts.name = o2.ts.name → o1.target = o2.target)
    (ts : TSModel) (t1 t2 : TsTarget) (hne : t1 ≠ t2) :
    ¬(ts_exists ts (targetDict (applyTsOps emptyNWBFileSt ops) t1) = true
      ∧ ts_exists ts (targetDict (applyTsOps emptyNWBFileSt ops) t2) = true) := by
  rintro ⟨h1, h2⟩
  rw [is_classified_iff, mem_targetDict_applyTsOps] at h1 h2
  have hempty : ∀ t : TsTarget, dictKeys (targetDict emptyNWBFileSt t) = [] := by
    intro t
    cases t <;> rfl
  rw [hempty] at h1 h2
  rcases h1 with h1 | ⟨o1, ho1, ht1, hn1⟩
  · exact absurd h1 (List.not_mem_nil _)
  rcases h2 with h2 | ⟨o2, ho2, ht2, hn2⟩
  · exact absurd h2 (List.not_mem_nil _)
  exact hne (ht1 ▸ ht2 ▸ h o1 ho1 o2 ho2 (hn1.trans hn2.symm))

/-- Witness for C9 amended: a sequence adding distinct names to distinct
namespaces leaves "series1" classified in at most the raw namespace. -/
theorem C9_disjoint_without_cross_adds_witness :
    (∀ o1 ∈ [TsAddOp.mk .raw ⟨"series1", "sA"⟩, TsAddOp.mk .stim ⟨"series2", "sB"⟩],
      ∀ o2 ∈ [TsAddOp.mk .raw ⟨"series1", "sA"⟩, TsAddOp.mk .stim ⟨"series2", "sB"⟩],
        o1.ts.name = o2.ts.name → o1.target = o2.target)
    ∧ ¬(ts_exists ⟨"series1", "sA"⟩ (targetDict (applyTsOps emptyNWBFileSt
          [TsAddOp.mk .raw ⟨"series1", "sA"⟩, TsAddOp.mk .stim ⟨"series2", "sB"⟩]) .raw) = true
        ∧ ts_exists ⟨"series1", "sA"⟩ (targetDict (applyTsOps emptyNWBFileSt
          [TsAddOp.mk .raw ⟨"series1", "sA"⟩, TsAddOp.mk .stim ⟨"series2", "sB"⟩]) .stim) = true) :=
  ⟨by decide,
    C9_disjoint_without_cross_adds
      [TsAddOp.mk .raw ⟨"series1", "sA"⟩, TsAddOp.mk .stim ⟨"series2", "sB"⟩]
      (by decide) ⟨"series1", "sA"⟩ .raw .stim (by decide)⟩

/-! ## C1: the deferred interval-indexing pass -/

/-- C1: evaluation of the indexing scenario.  The spec-modelled interval
computation over the claim's window [10, 20] does give the claimed record
{start_index 10, count 11}; but the deferred pass in the source (write.py:201-
213) first resolves the referenced series's path, which always fails with the
top-container slip, and even apart from that it accumulates the interval
(start, start) = (10, 10), whose record has count 1, not 11. -/
theorem C1_interval_indexing_scenario :
    intervalRecord (regularTimestamps 0 1 100) 10 20 = (some 10, 11)
    ∧ intervalRecord (regularTimestamps 0 1 100)
        (epochIntervalArgs ⟨10, 20⟩).1 (epochIntervalArgs ⟨10, 20⟩).2 = (some 10, 1)
    ∧ (1 : Nat) ≠ 11
    ∧ get_container_location scenarioSeries = .error .orphanTop := by
  refine ⟨by decide, by decide, by decide, rfl⟩

/-! ## C2: data/timestamps link rendering -/

/-- C2: evaluation of the same-file data-link scenario.  The placement rule
for "seriesA" succeeds, but `get_container_location` fails for every non-file
container (`top_container` is updated before stepping to the parent, so the
file check inspects the root's child), hence `time_series` raises instead of
emitting the claimed soft link. -/
theorem C2_data_link_render_fails :
    relative_location (.file demoNS) demoSeriesA = .ok "acquisition/timeseries/seriesA"
    ∧ get_container_location demoSeriesA = .error .orphanTop
    ∧ time_series demoSeriesARender = .error .orphanTop := by
  refine ⟨rfl, rfl, rfl⟩

/-! ## C3: placement prefixes for TimeSeries under the root -/

/-- C3: evaluation of the three placement prefixes.  Raw-data and stimulus
series resolve under "acquisition/timeseries" and "stimulus/presentation",
matching the declared layout; but a stimulus-template series resolves under
"stimulus/templates", while the layout that `nwb_file` declares creates only a
child named "template" (no "templates") under `stimulus` — the claimed match
with the declared layout fails.  An unmatched parent/child type pair errors. -/
theorem C3_template_prefix_layout_mismatch :
    relative_location (.file (FileNS.mk ["r1"] ["s1"] ["t1"] "f.nwb"))
        (.child .timeSeriesK "r1" (.file (FileNS.mk ["r1"] ["s1"] ["t1"] "f.nwb")))
      = .ok "acquisition/timeseries/r1"
    ∧ relative_location (.file (FileNS.mk ["r1"] ["s1"] ["t1"] "f.nwb"))
        (.child .timeSeriesK "s1" (.file (FileNS.mk ["r1"] ["s1"] ["t1"] "f.nwb")))
      = .ok "stimulus/presentation/s1"
    ∧ relative_location (.file (FileNS.mk ["r1"] ["s1"] ["t1"] "f.nwb"))
        (.child .timeSeriesK "t1" (.file (FileNS.mk ["r1"] ["s1"] ["t1"] "f.nwb")))
      = .ok "stimulus/templates/t1"
    ∧ stimulusLayoutChildNames = ["template", "presentation"]
    ∧ ("templates" ∈ stimulusLayoutChildNames → False)
    ∧ relative_location (.file (FileNS.mk ["r1"] ["s1"] ["t1"] "f.nwb"))
        (.child .ifaceK "i1" (.file (FileNS.mk ["r1"] ["s1"] ["t1"] "f.nwb")))
      = .error .unknownPlacement := by
  refine ⟨rfl, rfl, rfl, by decide, by decide, rfl⟩

/-! ## C7: ancestry-ordered dispatch and merge -/

/-- C7: rendering a container collects exactly the procedures registered for
the types of its ancestor chain; the chain is ordered most-base to
most-derived (each earlier type is a proper ancestor of each later one), the
procedures execute in that order, and the partial results are merged by
folding `deep_update` of each later result into the first one. -/
theorem C7_ancestry_ordered_dispatch {α : Type} (reg : CType → List (α → GroupB))
    (t : CType) (c : α) (r : GroupB) (rs : List GroupB)
    (h : baseProcess reg t c = r :: rs) :
    List.Pairwise (fun a b => a ≠ b ∧ a ∈ mro b) (get_object_properties t)
    ∧ baseProcess reg t c
        = (get_object_properties t).flatMap (fun ty => (reg ty).map (fun p => p c))
    ∧ rendererProcess reg t c = rs.foldlM deep_update r := by
  refine ⟨?_, ?_, ?_⟩
  · cases t <;> decide
  · simp [baseProcess, collectProcedures, List.map_flatMap]
  · rw [rendererProcess, h]

/-- Witness for C7, at the registration pattern of `TimeSeriesHdf5Renderer`
applied to an ElectricalSeries container: the two TimeSeries-registered
procedures run first (base), the ElectricalSeries one last (derived), and the
result is the fold of `deep_update` into the first partial builder. -/
theorem C7_ancestry_ordered_dispatch_witness :
    baseProcess demoRegistry .electricalSeriesT ()
      = demoTsBuilder :: [demoAfsBuilder, demoEsBuilder]
    ∧ rendererProcess demoRegistry .electricalSeriesT ()
      = [demoAfsBuilder, demoEsBuilder].foldlM deep_update demoTsBuilder :=
  ⟨rfl,
    (C7_ancestry_ordered_dispatch demoRegistry .electricalSeriesT ()
      demoTsBuilder [demoAfsBuilder, demoEsBuilder] rfl).2.2⟩

/-! ## C6: structural commits before link creation -/

mutual
theorem write_group_no_link : ∀ (parent name : String) (g : GroupB),
    ∀ e ∈ (write_group parent name g).1, isLinkEvent e = false
  | parent, name, .mk gs ds as ls => by
      intro e he
      simp only [write_group, List.mem_cons, List.mem_append] at he
      rcases he with he | (he | he) | he
      · subst he; rfl
      · exact write_entries_no_link (joinPath parent name) gs e he
      · rcases List.mem_map.mp he with ⟨p, _, hp⟩
        subst hp; rfl
      · rcases List.mem_map.mp he with ⟨p, _, hp⟩
        subst hp; rfl
theorem write_entries_no_link : ∀ (parent : String) (es : GEntries),
    ∀ e ∈ (write_entries parent es).1, isLinkEvent e = false
  | parent, .nil => by
      intro e he
      simp [write_entries] at he
  | parent, .cons n g rest => by
      intro e he
      simp only [write_entries, List.mem_append] at he
      rcases he with he | he
      · exact write_group_no_link parent n g e he
      · exact write_entries_no_link parent rest e he
end

theorem foldl_writeStep_no_link (l : List (String × GroupB))
    (acc : List WEvent × List (String × LinkB))
    (hacc : ∀ e ∈ acc.1, isLinkEvent e = false) :
    ∀ e ∈ (l.foldl writeStep acc).1, isLinkEvent e = false := by
  induction l generalizing acc with
  | nil => exact hacc
  | cons p t ih =>
      refine ih (writeStep acc p) ?_
      intro e he
      rcases List.mem_append.mp he with he | he
      · exact hacc e he
      · exact write_group_no_link "" p.1 p.2 e he

theorem noStructuralAfterLink_append (A B : List WEvent)
    (hA : ∀ e ∈ A, isLinkEvent e = false) (hB : ∀ e ∈ B, isLinkEvent e = true) :
    noStructuralAfterLink (A ++ B) = true := by
  induction A with
  | nil =>
      cases B with
      | nil => rfl
      | cons b t =>
          have hb := hB b (List.mem_cons_self b t)
          simp only [List.nil_append, noStructuralAfterLink, hb, if_true]
          rw [List.all_eq_true]
          intro e he
          exact hB e (List.mem_cons_of_mem b he)
  | cons a t ih =>
      have ha := hA a (List.mem_cons_self a t)
      simp only [List.cons_append, noStructuralAfterLink, ha]
      simp only [Bool.false_eq_true, if_false]
      exact ih (fun e he => hA e (List.mem_cons_of_mem a he))

mutual
theorem structuralItems_sub_write_group : ∀ (parent name : String) (g : GroupB),
    ∀ e ∈ structuralItems parent name g, e ∈ (write_group parent name g).1
  | parent, name, .mk gs ds as ls => by
      intro e he
      simp only [structuralItems, List.mem_cons, List.mem_append] at he
      simp only [write_group, List.mem_cons, List.mem_append]
      have hsub := structuralItemsEntries_sub_write_entries (joinPath parent name) gs e
      tauto
theorem structuralItemsEntries_sub_write_entries : ∀ (parent : String) (es : GEntries),
    ∀ e ∈ structuralItemsEntries parent es, e ∈ (write_entries parent es).1
  | parent, .nil => by
      intro e he
      simp [structuralItemsEntries] at he
  | parent, .cons n g rest => by
      intro e he
      simp only [structuralItemsEntries, List.mem_append] at he
      simp only [write_entries, List.mem_append]
      rcases he with he | he
      · exact Or.inl (structuralItems_sub_write_group parent n g e he)
      · exact Or.inr (structuralItemsEntries_sub_write_entries parent rest e he)
end

theorem mem_foldl_writeStep_acc (l : List (String × GroupB))
    (acc : List WEvent × List (String × LinkB)) (e : WEvent) (he : e ∈ acc.1) :
    e ∈ (l.foldl writeStep acc).1 := by
  induction l generalizing acc with
  | nil => exact he
  | cons p t ih =>
      exact ih (writeStep acc p) (List.mem_append.mpr (Or.inl he))

theorem mem_foldl_writeStep (l : List (String × GroupB))
    (acc : List WEvent × List (String × LinkB)) (p : String × GroupB) (hp : p ∈ l)
    (e : WEvent) (he : e ∈ (write_group "" p.1 p.2).1) :
    e ∈ (l.foldl writeStep acc).1 := by
  induction l generalizing acc with
  | nil => exact absurd hp (List.not_mem_nil p)
  | cons q t ih =>
      rcases List.mem_cons.mp hp with hq | hq
      · subst hq
        exact mem_foldl_writeStep_acc t (writeStep acc p)
          e (List.mem_append.mpr (Or.inr he))
      · exact ih (writeStep acc q) hq

/-- C6 amended: links encountered during the walk over the root builder's
top-level groups are deferred and materialized only after the walk, so no
structural commit ever follows a link creation; and every group, dataset and
attribute lying inside those top-level groups is committed in the trace.
(The walk covers only the top-level groups — the root builder's own datasets
and attributes are never committed, as the counterexample shows.) -/
theorem C6_structural_before_links (b : GroupB) :
    noStructuralAfterLink (writeTrace b) = true
    ∧ ∀ p ∈ GEntries.toList b.groupsOf,
        ∀ e ∈ structuralItems "" p.1 p.2, e ∈ writeTrace b := by
  constructor
  · refine noStructuralAfterLink_append _ _ ?_ ?_
    · exact foldl_writeStep_no_link _ _ (by intro e he; simp at he)
    · intro e he
      rcases List.mem_map.mp he with ⟨p, _, hp⟩
      subst hp
      obtain ⟨pa, pl⟩ := p
      cases pl <;> rfl
  · intro p hp e he
    exact List.mem_append.mpr (Or.inl
      (mem_foldl_writeStep _ _ p hp e (structuralItems_sub_write_group "" p.1 p.2 e he)))

/-- C6 counterexample: on a builder with a root-level dataset and a group
containing a soft link, the claim as stated fails — the root-level dataset is
never committed to the backend at all (the writer walks only the top-level
groups), even though a link is created. -/
theorem C6_root_dataset_never_committed : claimC6holds c6Builder = false := by
  decide

/-! ## C8: rendering twice is not reproducible -/

/-- C8 counterexample: rendering the same container graph twice with no
mutation in between, the two Builder trees differ — the root
`file_create_date` dataset records `time.ctime()` read during each render, so
two renders at different wall-clock instants disagree on that value. -/
theorem C8_render_not_reproducible :
    nwb_file_builder c8File "Mon Jan  2 10:00:00 2017"
      ≠ nwb_file_builder c8File "Mon Jan  2 10:00:01 2017" := by
  intro h
  have h3 : rootDatasetValue (nwb_file_builder c8File "Mon Jan  2 10:00:00 2017")
        "file_create_date"
      = rootDatasetValue (nwb_file_builder c8File "Mon Jan  2 10:00:01 2017")
        "file_create_date" :=
    congrArg (fun r => rootDatasetValue r "file_create_date") h
  have ha : rootDatasetValue (nwb_file_builder c8File "Mon Jan  2 10:00:00 2017")
        "file_create_date"
      = some (DataValue.strList ["Mon Jan  2 10:00:00 2017"]) := rfl
  have hb : rootDatasetValue (nwb_file_builder c8File "Mon Jan  2 10:00:01 2017")
        "file_create_date"
      = some (DataValue.strList ["Mon Jan  2 10:00:01 2017"]) := rfl
  rw [ha, hb] at h3
  exact absurd h3 (by decide)

/-- C8 amended: rendering the same container graph twice yields identical
results — identical Builder trees on success and identical errors on failure
— except for the root `file_create_date` dataset, which records the
wall-clock time of each render; with equal clock readings the renders
coincide exactly. -/
theorem C8_render_reproducible_modulo_create_date (f : RenderFile) (t1 t2 : String) :
    eraseCreateDateE (nwb_file_builder f t1) = eraseCreateDateE (nwb_file_builder f t2) := by
  unfold nwb_file_builder
  cases renderEpochsPass f.epochs with
  | error e => rfl
  | ok ee =>
      cases renderTsPass f with
      | error e => rfl
      | ok ts =>
          cases renderModulesPass GEntries.nil f.modules with
          | error e => rfl
          | ok me => simp [eraseCreateDateE, eraseCreateDate]

end NWB
